import Mathlib

/-!
Shallow embedding of `pytorch3d/implicitron/evaluation/evaluator.py`.

The file under verification is a thin evaluation loop:
* `_get_eval_frame_data` deep-copies a `FrameData` batch and zeroes the four
  tensor fields `image_rgb`, `depth_map`, `fg_probability`, `mask_crop` for
  frames that are not marked known, by multiplying each with a per-frame
  is-known indicator broadcast over the remaining tensor dimensions;
* `_dump_to_json` tags each summarized record with `eval_epoch` (when an epoch
  is given) and writes the records to `<exp_dir>/results_test.json`, raising a
  `ValueError` when `exp_dir` is `None`;
* `ImplicitronEvaluator.run` iterates the dataloader, feeds the masked copy to
  the model, feeds the original batch to the external `eval_batch`, summarizes
  and optionally dumps.

Tensors are embedded as `List (List Int)`: the outer list is the batch (frame)
dimension, the inner list holds the flattened per-frame values; machine floats
are idealized as integers since the claims only concern exact zeroing,
pass-through and record tagging.  Mutation is made explicit: functions that
mutate return the post-state of every object they could touch, and a Python
exception is an `Option`-`none` (or a recorded error flag where the claims
observe the post-state on error).
-/

/-- A batch of frames, embedding the fields of `FrameData` that
`evaluator.py` touches.  The four maskable tensor fields are `Option`s, as in
the source they may be `None`.  `frame_type` records per frame whether the
frame is marked known (the source stores per-frame type strings; the is-known
indicator derived from them is modelled below).  `cameras` and `other` stand
for all remaining attributes of the batch, which the source only deep-copies. -/
structure FrameData where
  image_rgb : Option (List (List Int))
  depth_map : Option (List (List Int))
  fg_probability : Option (List (List Int))
  mask_crop : Option (List (List Int))
  frame_type : List Bool
  cameras : Nat
  other : List (String × Int)
deriving DecidableEq, Repr

/-- Modelled from the spec: `is_known_frame` (from
`pytorch3d.implicitron.dataset.utils`, which is not part of this source slice)
returns the per-frame "is known" indicator for a batch; frames marked known
map to `true`, frames marked unknown to `false`.  Since `frame_type` is
already embedded as the per-frame known flag, the indicator is that list. -/
def is_known_frame (frame_type : List Bool) : List Bool :=
  frame_type

/-- The `.type_as(frame_data.image_rgb)` cast of the boolean indicator to the
value dtype: `true` becomes `1`, `false` becomes `0`. -/
def typeAsValue (b : Bool) : Int :=
  if b then 1 else 0

/-- `value.clone() * is_known` with `is_known` of shape `[B, 1, 1, 1]`:
the elementwise product broadcasts the per-frame indicator across each frame
slice, so frame `i` of the result is frame `i` of `value` scaled by entry `i`
of the indicator. -/
def maskValue (is_known : List Int) (value : List (List Int)) : List (List Int) :=
  (value.zip is_known).map (fun p => p.1.map (fun x => x * p.2))

/-- `_get_eval_frame_data(frame_data)`: deep-copies the batch, computes the
is-known indicator from `frame_data.frame_type` cast via
`.type_as(frame_data.image_rgb)`, and replaces each of the four fields of the
copy with its product against the indicator when present (`None` fields stay
`None`).  When `frame_data.image_rgb` is `None` the `type_as` call raises a
`TypeError`, embedded as `none`.  Returns the masked copy together with the
post-state of the input batch (all `setattr`s target the copy, so the input is
returned unchanged). -/
def _get_eval_frame_data (frame_data : FrameData) : Option (FrameData × FrameData) :=
  let frame_data_for_eval := frame_data
  match frame_data.image_rgb with
  | none => none
  | some _ =>
    let is_known : List Int := (is_known_frame frame_data.frame_type).map typeAsValue
    some
      ({ frame_data_for_eval with
          image_rgb := frame_data_for_eval.image_rgb.map (maskValue is_known)
          depth_map := frame_data_for_eval.depth_map.map (maskValue is_known)
          fg_probability := frame_data_for_eval.fg_probability.map (maskValue is_known)
          mask_crop := frame_data_for_eval.mask_crop.map (maskValue is_known) },
        frame_data)

/-- Frame `i` of an optional batched tensor, `none` when the tensor is absent
or the index is out of range. -/
def rowAt (t : Option (List (List Int))) (i : Nat) : Option (List Int) :=
  t.bind (fun l => l[i]?)

example :
    _get_eval_frame_data
      { image_rgb := some [[3, 4], [5, 6]]
        depth_map := some [[7], [8]]
        fg_probability := some [[9], [1]]
        mask_crop := some [[1], [1]]
        frame_type := [true, false]
        cameras := 0
        other := [("seq", 2)] } =
    some
      ({ image_rgb := some [[3, 4], [0, 0]]
         depth_map := some [[7], [0]]
         fg_probability := some [[9], [0]]
         mask_crop := some [[1], [0]]
         frame_type := [true, false]
         cameras := 0
         other := [("seq", 2)] },
       { image_rgb := some [[3, 4], [5, 6]]
         depth_map := some [[7], [8]]
         fg_probability := some [[9], [1]]
         mask_crop := some [[1], [1]]
         frame_type := [true, false]
         cameras := 0
         other := [("seq", 2)] }) := by
  decide

/-! ### Lemmas about masking -/

lemma maskValue_getElem? (is_known : List Int) (value : List (List Int)) (i : Nat) :
    (maskValue is_known value)[i]? =
      match value[i]?, is_known[i]? with
      | some row, some k => some (row.map (fun x => x * k))
      | _, _ => none := by
  induction value generalizing is_known i with
  | nil => simp [maskValue]
  | cons v vs ih =>
    cases is_known with
    | nil => simp [maskValue, List.zip_nil_right]
    | cons k ks =>
      cases i with
      | zero => simp [maskValue]
      | succ n =>
        have h := ih ks n
        simpa [maskValue, List.getElem?_cons_succ] using h

lemma maskValue_row_unknown (ft : List Bool) (v : List (List Int)) (i : Nat)
    (hi : i < ft.length) (hft : ft[i] = false) (row : List Int)
    (hrow : (maskValue (ft.map typeAsValue) v)[i]? = some row) :
    ∀ x ∈ row, x = 0 := by
  rw [maskValue_getElem?] at hrow
  rcases hv : v[i]? with _ | r
  · rw [hv] at hrow; simp at hrow
  · rw [hv, List.getElem?_map, List.getElem?_eq_getElem hi, hft] at hrow
    have h0 : typeAsValue false = 0 := rfl
    simp only [Option.map_some', h0, mul_zero] at hrow
    cases hrow
    intro x hx
    simp only [List.mem_map] at hx
    rcases hx with ⟨y, hy, hxy⟩
    exact hxy.symm

lemma maskValue_row_known (ft : List Bool) (v : List (List Int)) (i : Nat)
    (hi : i < ft.length) (hft : ft[i] = true) :
    (maskValue (ft.map typeAsValue) v)[i]? = v[i]? := by
  rw [maskValue_getElem?]
  rcases hv : v[i]? with _ | r
  · simp
  · rw [List.getElem?_map, List.getElem?_eq_getElem hi, hft]
    simp [typeAsValue]

lemma masked_field_rowAt (ft : List Bool) (v : Option (List (List Int))) (i : Nat)
    (hi : i < ft.length) :
    (ft[i] = false →
      ∀ row, rowAt (v.map (maskValue (ft.map typeAsValue))) i = some row →
        ∀ x ∈ row, x = 0) ∧
    (ft[i] = true →
      rowAt (v.map (maskValue (ft.map typeAsValue))) i = rowAt v i) := by
  cases v with
  | none => simp [rowAt]
  | some t =>
    constructor
    · intro hft row hrow
      exact maskValue_row_unknown ft t i hi hft row hrow
    · intro hft
      simpa [rowAt] using maskValue_row_known ft t i hi hft

lemma get_eval_frame_data_inv (fd res fd₂ : FrameData)
    (h : _get_eval_frame_data fd = some (res, fd₂)) :
    res.image_rgb = fd.image_rgb.map (maskValue (fd.frame_type.map typeAsValue)) ∧
    res.depth_map = fd.depth_map.map (maskValue (fd.frame_type.map typeAsValue)) ∧
    res.fg_probability = fd.fg_probability.map (maskValue (fd.frame_type.map typeAsValue)) ∧
    res.mask_crop = fd.mask_crop.map (maskValue (fd.frame_type.map typeAsValue)) ∧
    res.frame_type = fd.frame_type ∧ res.cameras = fd.cameras ∧ res.other = fd.other ∧
    fd₂ = fd := by
  unfold _get_eval_frame_data at h
  cases himg : fd.image_rgb with
  | none => rw [himg] at h; exact absurd h (by simp)
  | some img =>
    rw [himg] at h
    simp only [is_known_frame, Option.some.injEq, Prod.mk.injEq] at h
    rcases h with ⟨hres, hfd⟩
    subst hres hfd
    simp [himg, is_known_frame]

lemma get_eval_frame_data_some_image (fd : FrameData) (himg : fd.image_rgb = none) :
    _get_eval_frame_data fd = none := by
  unfold _get_eval_frame_data
  rw [himg]

/-- Sample batch with one known and one unknown frame, all four fields present. -/
def fd0 : FrameData :=
  { image_rgb := some [[3, 4], [5, 6]]
    depth_map := some [[7], [8]]
    fg_probability := some [[9], [1]]
    mask_crop := some [[1], [1]]
    frame_type := [true, false]
    cameras := 0
    other := [("seq", 2)] }

/-- The masked copy `_get_eval_frame_data` builds from `fd0`. -/
def res0 : FrameData :=
  { image_rgb := some [[3, 4], [0, 0]]
    depth_map := some [[7], [0]]
    fg_probability := some [[9], [0]]
    mask_crop := some [[1], [0]]
    frame_type := [true, false]
    cameras := 0
    other := [("seq", 2)] }

/-- C1: for every frame marked unknown in the input batch, each of the four
fields `image_rgb`, `depth_map`, `fg_probability`, `mask_crop` in the copy
returned by `_get_eval_frame_data` is exactly zero; for every frame marked
known, those fields keep their original values unchanged. -/
theorem get_eval_frame_data_zeroes_unknown_keeps_known
    (fd res fd₂ : FrameData) (h : _get_eval_frame_data fd = some (res, fd₂))
    (i : Nat) (hi : i < fd.frame_type.length) :
    (fd.frame_type[i] = false →
      (∀ row, rowAt res.image_rgb i = some row → ∀ x ∈ row, x = 0) ∧
      (∀ row, rowAt res.depth_map i = some row → ∀ x ∈ row, x = 0) ∧
      (∀ row, rowAt res.fg_probability i = some row → ∀ x ∈ row, x = 0) ∧
      (∀ row, rowAt res.mask_crop i = some row → ∀ x ∈ row, x = 0)) ∧
    (fd.frame_type[i] = true →
      rowAt res.image_rgb i = rowAt fd.image_rgb i ∧
      rowAt res.depth_map i = rowAt fd.depth_map i ∧
      rowAt res.fg_probability i = rowAt fd.fg_probability i ∧
      rowAt res.mask_crop i = rowAt fd.mask_crop i) := by
  rcases get_eval_frame_data_inv fd res fd₂ h with ⟨h1, h2, h3, h4, _, _, _, _⟩
  rw [h1, h2, h3, h4]
  constructor
  · intro hft
    exact ⟨(masked_field_rowAt fd.frame_type fd.image_rgb i hi).1 hft,
           (masked_field_rowAt fd.frame_type fd.depth_map i hi).1 hft,
           (masked_field_rowAt fd.frame_type fd.fg_probability i hi).1 hft,
           (masked_field_rowAt fd.frame_type fd.mask_crop i hi).1 hft⟩
  · intro hft
    exact ⟨(masked_field_rowAt fd.frame_type fd.image_rgb i hi).2 hft,
           (masked_field_rowAt fd.frame_type fd.depth_map i hi).2 hft,
           (masked_field_rowAt fd.frame_type fd.fg_probability i hi).2 hft,
           (masked_field_rowAt fd.frame_type fd.mask_crop i hi).2 hft⟩

theorem get_eval_frame_data_zeroes_unknown_keeps_known_witness :
    rowAt res0.image_rgb 0 = rowAt fd0.image_rgb 0 ∧
    rowAt res0.depth_map 0 = rowAt fd0.depth_map 0 ∧
    rowAt res0.fg_probability 0 = rowAt fd0.fg_probability 0 ∧
    rowAt res0.mask_crop 0 = rowAt fd0.mask_crop 0 :=
  (get_eval_frame_data_zeroes_unknown_keeps_known fd0 res0 fd0 (by decide) 0
    (by decide)).2 (by decide)

/-- C4: `_get_eval_frame_data` modifies only the four fields `image_rgb`,
`depth_map`, `fg_probability`, `mask_crop`; every other field of the returned
copy equals the corresponding field of the input (the deep copy preserves
value, not identity). -/
theorem get_eval_frame_data_passes_other_fields_through
    (fd res fd₂ : FrameData) (h : _get_eval_frame_data fd = some (res, fd₂)) :
    res.frame_type = fd.frame_type ∧ res.cameras = fd.cameras ∧
    res.other = fd.other := by
  rcases get_eval_frame_data_inv fd res fd₂ h with ⟨_, _, _, _, h5, h6, h7, _⟩
  exact ⟨h5, h6, h7⟩

theorem get_eval_frame_data_passes_other_fields_through_witness :
    res0.frame_type = fd0.frame_type ∧ res0.cameras = fd0.cameras ∧
    res0.other = fd0.other :=
  get_eval_frame_data_passes_other_fields_through fd0 res0 fd0 (by decide)

/-- C8: `_get_eval_frame_data` builds a masked copy and leaves its input
unmodified: the post-state of the input batch it returns is the input itself
(`copy.deepcopy` is taken first and every `setattr` targets the copy). -/
theorem get_eval_frame_data_input_unmodified
    (fd res fd₂ : FrameData) (h : _get_eval_frame_data fd = some (res, fd₂)) :
    fd₂ = fd :=
  (get_eval_frame_data_inv fd res fd₂ h).2.2.2.2.2.2.2

theorem get_eval_frame_data_input_unmodified_witness : fd0 = fd0 :=
  get_eval_frame_data_input_unmodified fd0 res0 fd0 (by decide)

/-- Batch with `image_rgb` absent: the `type_as` call in
`_get_eval_frame_data` then raises a `TypeError`. -/
def fdNoImage : FrameData :=
  { image_rgb := none
    depth_map := some [[1]]
    fg_probability := some [[2]]
    mask_crop := none
    frame_type := [true]
    cameras := 0
    other := [] }

/-- C9 counterexample: the claim says a `None` field is returned as `None`
without error for each of the four fields, but with `image_rgb = None` the
call errors (the is-known indicator is cast via
`.type_as(frame_data.image_rgb)` before the loop), so no masked copy is
returned at all. -/
theorem get_eval_frame_data_none_image_errors :
    _get_eval_frame_data fdNoImage = none := by decide

/-- C9 (amended): for `depth_map`, `fg_probability` and `mask_crop`, a `None`
field is returned as `None` without error, and the elementwise product is
applied exactly to the fields that are present; for `image_rgb`, however, a
`None` value makes `_get_eval_frame_data` raise a `TypeError` (from
`.type_as(frame_data.image_rgb)`) before the masking loop. -/
theorem get_eval_frame_data_none_passthrough (fd : FrameData) :
    (fd.image_rgb = none → _get_eval_frame_data fd = none) ∧
    (∀ res fd₂, _get_eval_frame_data fd = some (res, fd₂) →
      (fd.depth_map = none → res.depth_map = none) ∧
      (fd.fg_probability = none → res.fg_probability = none) ∧
      (fd.mask_crop = none → res.mask_crop = none) ∧
      (∀ v, fd.depth_map = some v →
        res.depth_map = some (maskValue (fd.frame_type.map typeAsValue) v)) ∧
      (∀ v, fd.fg_probability = some v →
        res.fg_probability = some (maskValue (fd.frame_type.map typeAsValue) v)) ∧
      (∀ v, fd.mask_crop = some v →
        res.mask_crop = some (maskValue (fd.frame_type.map typeAsValue) v))) := by
  constructor
  · intro himg
    exact get_eval_frame_data_some_image fd himg
  · intro res fd₂ h
    rcases get_eval_frame_data_inv fd res fd₂ h with ⟨_, h2, h3, h4, _, _, _, _⟩
    refine ⟨fun hv => ?_, fun hv => ?_, fun hv => ?_,
            fun v hv => ?_, fun v hv => ?_, fun v hv => ?_⟩
    · rw [h2, hv]; rfl
    · rw [h3, hv]; rfl
    · rw [h4, hv]; rfl
    · rw [h2, hv]; rfl
    · rw [h3, hv]; rfl
    · rw [h4, hv]; rfl

/-- Batch whose `depth_map` and `fg_probability` are absent. -/
def fdW : FrameData :=
  { image_rgb := some [[1, 2]]
    depth_map := none
    fg_probability := none
    mask_crop := some [[3, 4]]
    frame_type := [false]
    cameras := 1
    other := [] }

/-- The masked copy `_get_eval_frame_data` builds from `fdW`. -/
def resW : FrameData :=
  { image_rgb := some [[0, 0]]
    depth_map := none
    fg_probability := none
    mask_crop := some [[0, 0]]
    frame_type := [false]
    cameras := 1
    other := [] }

theorem get_eval_frame_data_none_passthrough_witness :
    resW.depth_map = none ∧ resW.fg_probability = none :=
  ⟨((get_eval_frame_data_none_passthrough fdW).2 resW fdW (by decide)).1 rfl,
   ((get_eval_frame_data_none_passthrough fdW).2 resW fdW (by decide)).2.1 rfl⟩

/-! ### The JSON dump and the run loop -/

/-- A JSON-serializable metric value: integers (as written by the epoch tag)
or an opaque non-integer metric payload. -/
inductive JVal where
  | vint : Int → JVal
  | vnum : Nat → JVal
deriving DecidableEq, Repr

/-- A summarized result record: a Python dict from metric names to values,
embedded as an insertion-ordered association list with unique keys enforced
by the dict update operation. -/
abbrev Record : Type := List (String × JVal)

/-- Python dict assignment `r[k] = v`: overwrites the value in place when the
key is present (keeping its position), else appends the new key. -/
def dictSet (r : Record) (k : String) (v : JVal) : Record :=
  if r.any (fun p => p.1 == k) then
    r.map (fun p => if p.1 == k then (k, v) else p)
  else
    r ++ [(k, v)]

/-- Python dict lookup `r[k]`. -/
def dictGet (r : Record) (k : String) : Option JVal :=
  (r.find? (fun p => p.1 == k)).map Prod.snd

lemma dictGet_dictSet (r : Record) (k : String) (v : JVal) :
    dictGet (dictSet r k v) k = some v := by
  unfold dictSet dictGet
  by_cases h : r.any (fun p => p.1 == k)
  · rw [if_pos h]
    induction r with
    | nil => simp at h
    | cons p t ih =>
      by_cases hp : (p.1 == k) = true
      · rw [List.map_cons, if_pos hp, List.find?_cons_of_pos _ (by simp)]
        rfl
      · rw [List.map_cons, if_neg hp, List.find?_cons_of_neg _ (by simpa using hp)]
        apply ih
        rcases List.any_eq_true.mp h with ⟨q, hq, hqk⟩
        rcases List.mem_cons.mp hq with rfl | hqt
        · exact absurd hqk hp
        · exact List.any_eq_true.mpr ⟨q, hqt, hqk⟩
  · rw [if_neg h]
    induction r with
    | nil => simp [List.find?]
    | cons p t ih =>
      have hp : ¬ (p.1 == k) = true := fun hc => h (by simp [List.any_cons, hc])
      have ht : ¬ (t.any fun p => p.1 == k) = true :=
        fun hc => h (by simp [List.any_cons, hc])
      rw [List.cons_append,
        @List.find?_cons_of_neg _ (fun q => q.1 == k) p (t ++ [(k, v)]) hp]
      exact ih ht

/-- Outcome of `_dump_to_json`: the post-state of the (in-place mutated)
results list, the file write performed (path and contents), and whether the
`ValueError` for a missing save path was raised.  The post-state is reported
even when the error is raised, because the epoch tagging happens first. -/
structure DumpOutcome where
  results : List Record
  written : Option (String × List Record)
  config_error : Bool
deriving DecidableEq, Repr

/-- `_dump_to_json(epoch, exp_dir, results)`: when `epoch` is not `None`,
sets `r["eval_epoch"] = int(epoch)` on every record in place; then, when
`exp_dir` is `None`, raises
`ValueError("Cannot save results to json without a specified save path.")`,
else writes the records to `os.path.join(exp_dir, "results_test.json")`. -/
def _dump_to_json (epoch : Option Int) (exp_dir : Option String)
    (results : List Record) : DumpOutcome :=
  let results :=
    match epoch with
    | some e => results.map (fun r => dictSet r "eval_epoch" (JVal.vint e))
    | none => results
  match exp_dir with
  | none => { results := results, written := none, config_error := true }
  | some d =>
    { results := results
      written := some (d ++ "/results_test.json", results)
      config_error := false }

/-- The arguments one iteration of the `run` loop passes to its
collaborators: the masked copy fed to the model, and the original batch plus
the source cameras fed to `evaluate.eval_batch`. -/
structure BatchCall (Cam : Type) where
  model_arg : FrameData
  eval_frame_arg : FrameData
  source_cameras : Option Cam
deriving DecidableEq, Repr

/-- The per-batch loop of `ImplicitronEvaluator.run` (lines 98-122): for each
batch from the dataloader, move it to the device (value-preserving), build the
masked copy with `_get_eval_frame_data`, call the model on the masked copy,
and call `evaluate.eval_batch` on the original batch with
`source_cameras = None if self.is_multisequence else all_train_cameras`.
Returns the trace of collaborator calls; `none` when `_get_eval_frame_data`
raises. -/
def run_loop {Cam : Type} (is_multisequence : Bool)
    (all_train_cameras : Option Cam) : List FrameData → Option (List (BatchCall Cam))
  | [] => some []
  | frame_data :: rest =>
    match _get_eval_frame_data frame_data with
    | none => none
    | some (frame_data_for_eval, _) =>
      match run_loop is_multisequence all_train_cameras rest with
      | none => none
      | some calls =>
        some
          ({ model_arg := frame_data_for_eval
             eval_frame_arg := frame_data
             source_cameras :=
               if is_multisequence then none else all_train_cameras } :: calls)

/-- Observable outcome of `ImplicitronEvaluator.run`: the collaborator call
trace, the per-batch results passed to the summarizer, the returned results
records, the post-state of those records (they alias `category_result`, so
mutation by the dump is visible to the caller even on error), the file write,
and whether the dump `ValueError` was raised. -/
structure RunOutcome (Cam R : Type) where
  calls : List (BatchCall Cam)
  per_batch : List R
  ret : List Record
  results_state : List Record
  written : Option (String × List Record)
  config_error : Bool
deriving DecidableEq, Repr

/-- The tail of `ImplicitronEvaluator.run` (lines 112-135) given the loop's
call trace: compute the per-batch eval results via `evaluate.eval_batch`
(abstracted as `eval_batch`), summarize them with the external
`evaluate.summarize_nvs_eval_results` (abstracted as `summarize`), and when
`dump_to_json` is set call `_dump_to_json(epoch, exp_dir, results)`. -/
def run_after_loop {Cam R : Type}
    (eval_batch : FrameData → Option Cam → R)
    (summarize : List R → List Record)
    (dump_to_json : Bool) (exp_dir : Option String) (epoch : Option Int)
    (calls : List (BatchCall Cam)) : RunOutcome Cam R :=
  let per_batch_eval_results :=
    calls.map (fun c => eval_batch c.eval_frame_arg c.source_cameras)
  let results := summarize per_batch_eval_results
  if dump_to_json then
    let d := _dump_to_json epoch exp_dir results
    { calls := calls
      per_batch := per_batch_eval_results
      ret := d.results
      results_state := d.results
      written := d.written
      config_error := d.config_error }
  else
    { calls := calls
      per_batch := per_batch_eval_results
      ret := results
      results_state := results
      written := none
      config_error := false }

/-- `ImplicitronEvaluator.run`: the per-batch loop followed by summarization
and the optional JSON dump.  `none` when the loop raises. -/
def ImplicitronEvaluator.run {Cam R : Type} (is_multisequence : Bool)
    (all_train_cameras : Option Cam)
    (eval_batch : FrameData → Option Cam → R)
    (summarize : List R → List Record)
    (dataloader : List FrameData)
    (dump_to_json : Bool) (exp_dir : Option String) (epoch : Option Int) :
    Option (RunOutcome Cam R) :=
  (run_loop is_multisequence all_train_cameras dataloader).map
    (run_after_loop eval_batch summarize dump_to_json exp_dir epoch)

lemma dump_to_json_config_error (epoch : Option Int) (exp_dir : Option String)
    (rs : List Record) :
    (_dump_to_json epoch exp_dir rs).config_error = true ↔ exp_dir = none := by
  unfold _dump_to_json
  cases exp_dir <;> cases epoch <;> simp

lemma run_after_loop_fields {Cam R : Type}
    (eval_batch : FrameData → Option Cam → R) (summarize : List R → List Record)
    (dump_to_json : Bool) (exp_dir : Option String) (epoch : Option Int)
    (calls : List (BatchCall Cam)) :
    (run_after_loop eval_batch summarize dump_to_json exp_dir epoch calls).calls =
      calls ∧
    (run_after_loop eval_batch summarize dump_to_json exp_dir epoch calls).per_batch =
      calls.map (fun c => eval_batch c.eval_frame_arg c.source_cameras) := by
  cases dump_to_json <;> simp [run_after_loop]

lemma run_inv {Cam R : Type} (is_multisequence : Bool)
    (all_train_cameras : Option Cam) (eval_batch : FrameData → Option Cam → R)
    (summarize : List R → List Record) (dataloader : List FrameData)
    (dump_to_json : Bool) (exp_dir : Option String) (epoch : Option Int)
    (out : RunOutcome Cam R)
    (h : ImplicitronEvaluator.run is_multisequence all_train_cameras eval_batch
      summarize dataloader dump_to_json exp_dir epoch = some out) :
    run_loop is_multisequence all_train_cameras dataloader = some out.calls ∧
    out = run_after_loop eval_batch summarize dump_to_json exp_dir epoch out.calls := by
  unfold ImplicitronEvaluator.run at h
  rcases Option.map_eq_some'.mp h with ⟨calls, hl, hout⟩
  have hc : out.calls = calls := by
    rw [← hout]
    exact (run_after_loop_fields eval_batch summarize dump_to_json exp_dir epoch
      calls).1
  rw [hc, hl, hout]
  exact ⟨rfl, rfl⟩

lemma run_after_loop_dump {Cam R : Type}
    (eval_batch : FrameData → Option Cam → R) (summarize : List R → List Record)
    (exp_dir : Option String) (epoch : Option Int)
    (calls : List (BatchCall Cam)) :
    run_after_loop eval_batch summarize true exp_dir epoch calls =
      { calls := calls
        per_batch := calls.map (fun c => eval_batch c.eval_frame_arg c.source_cameras)
        ret := (_dump_to_json epoch exp_dir (summarize (calls.map
          (fun c => eval_batch c.eval_frame_arg c.source_cameras)))).results
        results_state := (_dump_to_json epoch exp_dir (summarize (calls.map
          (fun c => eval_batch c.eval_frame_arg c.source_cameras)))).results
        written := (_dump_to_json epoch exp_dir (summarize (calls.map
          (fun c => eval_batch c.eval_frame_arg c.source_cameras)))).written
        config_error := (_dump_to_json epoch exp_dir (summarize (calls.map
          (fun c => eval_batch c.eval_frame_arg c.source_cameras)))).config_error } :=
  rfl

lemma run_after_loop_nodump {Cam R : Type}
    (eval_batch : FrameData → Option Cam → R) (summarize : List R → List Record)
    (exp_dir : Option String) (epoch : Option Int)
    (calls : List (BatchCall Cam)) :
    run_after_loop eval_batch summarize false exp_dir epoch calls =
      { calls := calls
        per_batch := calls.map (fun c => eval_batch c.eval_frame_arg c.source_cameras)
        ret := summarize (calls.map
          (fun c => eval_batch c.eval_frame_arg c.source_cameras))
        results_state := summarize (calls.map
          (fun c => eval_batch c.eval_frame_arg c.source_cameras))
        written := none
        config_error := false } :=
  rfl

/-- C2: `ImplicitronEvaluator.run` raises the configuration `ValueError` if
and only if it is called with `dump_to_json = True` and `exp_dir = None`;
with `dump_to_json = False` no such error is raised regardless of
`exp_dir`. -/
theorem run_config_error_iff {Cam R : Type} (is_multisequence : Bool)
    (all_train_cameras : Option Cam) (eval_batch : FrameData → Option Cam → R)
    (summarize : List R → List Record) (dataloader : List FrameData)
    (dump_to_json : Bool) (exp_dir : Option String) (epoch : Option Int)
    (out : RunOutcome Cam R)
    (h : ImplicitronEvaluator.run is_multisequence all_train_cameras eval_batch
      summarize dataloader dump_to_json exp_dir epoch = some out) :
    out.config_error = true ↔ (dump_to_json = true ∧ exp_dir = none) := by
  rcases run_inv _ _ _ _ _ _ _ _ _ h with ⟨-, hout⟩
  rw [hout]
  cases dump_to_json <;> cases exp_dir <;> cases epoch <;>
    simp [run_after_loop, _dump_to_json]

/-- External metric evaluator stand-in used by the concrete witnesses. -/
def ebA : FrameData → Option Nat → Nat := fun _ _ => 0

/-- External summarizer stand-in used by the concrete witnesses. -/
def smA : List Nat → List Record := fun _ => [[("psnr", JVal.vnum 1)]]

theorem run_config_error_iff_witness :
    (⟨[], [], [[("psnr", JVal.vnum 1)]], [[("psnr", JVal.vnum 1)]], none, true⟩ :
      RunOutcome Nat Nat).config_error = true ↔
    (true = true ∧ (none : Option String) = none) :=
  run_config_error_iff false none ebA smA [] true none none _ rfl

lemma dump_results_tagged (e : Int) (exp_dir : Option String) (rs : List Record) :
    (_dump_to_json (some e) exp_dir rs).results =
      rs.map (fun r => dictSet r "eval_epoch" (JVal.vint e)) := by
  cases exp_dir <;> simp [_dump_to_json]

lemma dump_written_some (epoch : Option Int) (d : String) (rs : List Record) :
    (_dump_to_json epoch d rs).written =
      some (d ++ "/results_test.json", (_dump_to_json epoch d rs).results) := by
  cases epoch <;> simp [_dump_to_json]

lemma dump_results_untagged (exp_dir : Option String) (rs : List Record) :
    (_dump_to_json none exp_dir rs).results = rs := by
  cases exp_dir <;> simp [_dump_to_json]

/-- C3: when `run` is called with `dump_to_json = True`, a non-`None`
`exp_dir` and a non-`None` `epoch`, the JSON file written at
`<exp_dir>/results_test.json` contains the summarized results list in which
every record carries an `eval_epoch` field equal to `int(epoch)`; when
`epoch` is `None`, no `eval_epoch` field is added and the summarized list is
written as is. -/
theorem run_dump_tags_epoch {Cam R : Type} (is_multisequence : Bool)
    (all_train_cameras : Option Cam) (eval_batch : FrameData → Option Cam → R)
    (summarize : List R → List Record) (dataloader : List FrameData)
    (d : String) (epoch : Option Int) (out : RunOutcome Cam R)
    (h : ImplicitronEvaluator.run is_multisequence all_train_cameras eval_batch
      summarize dataloader true (some d) epoch = some out) :
    (∀ e, epoch = some e →
      out.written = some (d ++ "/results_test.json",
        (summarize out.per_batch).map
          (fun r => dictSet r "eval_epoch" (JVal.vint e))) ∧
      (∀ pr, out.written = some pr →
        ∀ r ∈ pr.2, dictGet r "eval_epoch" = some (JVal.vint e))) ∧
    (epoch = none →
      out.written = some (d ++ "/results_test.json", summarize out.per_batch)) := by
  rcases run_inv _ _ _ _ _ _ _ _ _ h with ⟨-, hout⟩
  rw [run_after_loop_dump] at hout
  have hpb := congrArg RunOutcome.per_batch hout
  have hw := congrArg RunOutcome.written hout
  dsimp only at hpb hw
  constructor
  · rintro e rfl
    rw [hpb, hw, dump_written_some, dump_results_tagged]
    refine ⟨rfl, ?_⟩
    rintro pr hpr
    simp only [Option.some.injEq] at hpr
    subst hpr
    intro r hr
    simp only [List.mem_map] at hr
    rcases hr with ⟨r₀, hr₀, rfl⟩
    exact dictGet_dictSet r₀ "eval_epoch" (JVal.vint e)
  · rintro rfl
    rw [hpb, hw, dump_written_some, dump_results_untagged]

theorem run_dump_tags_epoch_witness :
    ((⟨[], [], [[("psnr", JVal.vnum 1), ("eval_epoch", JVal.vint 7)]],
        [[("psnr", JVal.vnum 1), ("eval_epoch", JVal.vint 7)]],
        some ("exp" ++ "/results_test.json",
          [[("psnr", JVal.vnum 1), ("eval_epoch", JVal.vint 7)]]),
        false⟩ : RunOutcome Nat Nat).written =
      some ("exp" ++ "/results_test.json",
        (smA (⟨[], [], [[("psnr", JVal.vnum 1), ("eval_epoch", JVal.vint 7)]],
          [[("psnr", JVal.vnum 1), ("eval_epoch", JVal.vint 7)]],
          some ("exp" ++ "/results_test.json",
            [[("psnr", JVal.vnum 1), ("eval_epoch", JVal.vint 7)]]),
          false⟩ : RunOutcome Nat Nat).per_batch).map
            (fun r => dictSet r "eval_epoch" (JVal.vint 7)))) :=
  ((run_dump_tags_epoch false none ebA smA [] "exp" (some 7) _ rfl).1 7 rfl).1

/-- C10: the epoch tagging in `_dump_to_json` mutates the result records in
place before the `exp_dir` check: with `dump_to_json = True` and a non-`None`
epoch, every record of the results list visible to the caller carries
`eval_epoch = int(epoch)`, and with `exp_dir = None` this mutation persists
even though the configuration error is raised and no file is written — the
dump is not atomic on error. -/
theorem run_epoch_tag_mutation_not_atomic {Cam R : Type} (is_multisequence : Bool)
    (all_train_cameras : Option Cam) (eval_batch : FrameData → Option Cam → R)
    (summarize : List R → List Record) (dataloader : List FrameData)
    (exp_dir : Option String) (e : Int) (out : RunOutcome Cam R)
    (h : ImplicitronEvaluator.run is_multisequence all_train_cameras eval_batch
      summarize dataloader true exp_dir (some e) = some out) :
    (∀ r ∈ out.results_state, dictGet r "eval_epoch" = some (JVal.vint e)) ∧
    (exp_dir = none → out.config_error = true ∧ out.written = none) := by
  rcases run_inv _ _ _ _ _ _ _ _ _ h with ⟨-, hout⟩
  rw [run_after_loop_dump] at hout
  have hrs := congrArg RunOutcome.results_state hout
  have hw := congrArg RunOutcome.written hout
  have hce := congrArg RunOutcome.config_error hout
  dsimp only at hrs hw hce
  constructor
  · rw [hrs, dump_results_tagged]
    intro r hr
    simp only [List.mem_map] at hr
    rcases hr with ⟨r₀, hr₀, rfl⟩
    exact dictGet_dictSet r₀ "eval_epoch" (JVal.vint e)
  · rintro rfl
    rw [hce, hw]
    exact ⟨by simp [_dump_to_json], by simp [_dump_to_json]⟩

/-- Concrete outcome of a dump attempt with `exp_dir = None` and epoch 7 on
an empty dataloader, for the witnesses. -/
def outT : RunOutcome Nat Nat :=
  { calls := []
    per_batch := []
    ret := [[("psnr", JVal.vnum 1), ("eval_epoch", JVal.vint 7)]]
    results_state := [[("psnr", JVal.vnum 1), ("eval_epoch", JVal.vint 7)]]
    written := none
    config_error := true }

theorem run_epoch_tag_mutation_not_atomic_witness :
    dictGet [("psnr", JVal.vnum 1), ("eval_epoch", JVal.vint 7)] "eval_epoch" =
      some (JVal.vint 7) ∧ outT.config_error = true :=
  ⟨(run_epoch_tag_mutation_not_atomic false none ebA smA [] none 7 outT rfl).1
      [("psnr", JVal.vnum 1), ("eval_epoch", JVal.vint 7)] (by decide),
   ((run_epoch_tag_mutation_not_atomic false none ebA smA [] none 7 outT rfl).2
      rfl).1⟩

lemma run_loop_trace {Cam : Type} (is_multisequence : Bool)
    (all_train_cameras : Option Cam) :
    ∀ (dataloader : List FrameData) (calls : List (BatchCall Cam)),
      run_loop is_multisequence all_train_cameras dataloader = some calls →
      calls.length = dataloader.length ∧
      ∀ p ∈ dataloader.zip calls,
        p.2.eval_frame_arg = p.1 ∧
        p.2.source_cameras =
          (if is_multisequence then none else all_train_cameras) ∧
        _get_eval_frame_data p.1 = some (p.2.model_arg, p.1)
  | [], calls => by
    intro h
    simp only [run_loop, Option.some.injEq] at h
    subst h
    simp
  | frame_data :: rest, calls => by
    intro h
    unfold run_loop at h
    cases hg : _get_eval_frame_data frame_data with
    | none => rw [hg] at h; exact absurd h (by simp)
    | some pair =>
      rw [hg] at h
      cases hl : run_loop is_multisequence all_train_cameras rest with
      | none => rw [hl] at h; exact absurd h (by simp)
      | some cs =>
        rw [hl] at h
        simp only [Option.some.injEq] at h
        subst h
        rcases run_loop_trace is_multisequence all_train_cameras rest cs hl
          with ⟨hlen, htr⟩
        refine ⟨by simp [hlen], ?_⟩
        intro p hp
        rcases List.mem_cons.mp (by simpa [List.zip_cons_cons] using hp)
          with rfl | hpt
        · have hsnd : pair.2 = frame_data :=
            (get_eval_frame_data_inv frame_data pair.1 pair.2
              (by rw [hg])).2.2.2.2.2.2.2
          refine ⟨rfl, rfl, ?_⟩
          rw [hg, ← hsnd]
        · exact htr p hpt

/-- C5: for every batch, the external metric evaluator `eval_batch` is
invoked with the original unmasked `frame_data` (so the unknown frames' data
is still present there), while only the model receives the masked copy: the
`i`-th call's `eval_frame_arg` is the `i`-th dataloader batch itself and its
`model_arg` is the masked copy `_get_eval_frame_data` built from that
batch. -/
theorem run_eval_batch_gets_unmasked {Cam R : Type} (is_multisequence : Bool)
    (all_train_cameras : Option Cam) (eval_batch : FrameData → Option Cam → R)
    (summarize : List R → List Record) (dataloader : List FrameData)
    (dump_to_json : Bool) (exp_dir : Option String) (epoch : Option Int)
    (out : RunOutcome Cam R)
    (h : ImplicitronEvaluator.run is_multisequence all_train_cameras eval_batch
      summarize dataloader dump_to_json exp_dir epoch = some out) :
    out.calls.length = dataloader.length ∧
    out.per_batch =
      out.calls.map (fun c => eval_batch c.eval_frame_arg c.source_cameras) ∧
    ∀ p ∈ dataloader.zip out.calls,
      p.2.eval_frame_arg = p.1 ∧
      _get_eval_frame_data p.1 = some (p.2.model_arg, p.1) := by
  rcases run_inv _ _ _ _ _ _ _ _ _ h with ⟨hl, hout⟩
  rcases run_loop_trace is_multisequence all_train_cameras dataloader out.calls hl
    with ⟨hlen, htr⟩
  refine ⟨hlen, ?_, fun p hp => ⟨(htr p hp).1, (htr p hp).2.2⟩⟩
  conv_lhs => rw [hout]
  exact (run_after_loop_fields eval_batch summarize dump_to_json exp_dir epoch
    out.calls).2

theorem run_eval_batch_gets_unmasked_witness :
    (BatchCall.mk res0 fd0 (some 5)).eval_frame_arg = fd0 ∧
    _get_eval_frame_data fd0 = some ((BatchCall.mk res0 fd0 (some 5)).model_arg, fd0) :=
  (run_eval_batch_gets_unmasked false (some 5) ebA smA [fd0] false none none
    ⟨[BatchCall.mk res0 fd0 (some 5)], [0], [[("psnr", JVal.vnum 1)]],
      [[("psnr", JVal.vnum 1)]], none, false⟩ (by decide)).2.2
    (fd0, BatchCall.mk res0 fd0 (some 5)) (by decide)

lemma run_loop_source_cameras {Cam : Type} (is_multisequence : Bool)
    (all_train_cameras : Option Cam) :
    ∀ (dataloader : List FrameData) (calls : List (BatchCall Cam)),
      run_loop is_multisequence all_train_cameras dataloader = some calls →
      ∀ c ∈ calls,
        c.source_cameras = if is_multisequence then none else all_train_cameras
  | [], calls => by
    intro h
    simp only [run_loop, Option.some.injEq] at h
    subst h
    simp
  | frame_data :: rest, calls => by
    intro h
    unfold run_loop at h
    cases hg : _get_eval_frame_data frame_data with
    | none => rw [hg] at h; exact absurd h (by simp)
    | some pair =>
      rw [hg] at h
      cases hl : run_loop is_multisequence all_train_cameras rest with
      | none => rw [hl] at h; exact absurd h (by simp)
      | some cs =>
        rw [hl] at h
        simp only [Option.some.injEq] at h
        subst h
        intro c hc
        rcases List.mem_cons.mp hc with rfl | hct
        · rfl
        · exact run_loop_source_cameras is_multisequence all_train_cameras rest
            cs hl c hct

/-- C6: for every batch, the `source_cameras` argument passed to `eval_batch`
is the `all_train_cameras` set when `is_multisequence` is `False`, and `None`
(making `eval_batch` use the batch's own known cameras) when
`is_multisequence` is `True`. -/
theorem run_source_cameras {Cam R : Type} (is_multisequence : Bool)
    (all_train_cameras : Option Cam) (eval_batch : FrameData → Option Cam → R)
    (summarize : List R → List Record) (dataloader : List FrameData)
    (dump_to_json : Bool) (exp_dir : Option String) (epoch : Option Int)
    (out : RunOutcome Cam R)
    (h : ImplicitronEvaluator.run is_multisequence all_train_cameras eval_batch
      summarize dataloader dump_to_json exp_dir epoch = some out) :
    ∀ c ∈ out.calls,
      (is_multisequence = false → c.source_cameras = all_train_cameras) ∧
      (is_multisequence = true → c.source_cameras = none) := by
  rcases run_inv _ _ _ _ _ _ _ _ _ h with ⟨hl, -⟩
  intro c hc
  have := run_loop_source_cameras is_multisequence all_train_cameras dataloader
    out.calls hl c hc
  constructor
  · rintro rfl
    simpa using this
  · rintro rfl
    simpa using this

theorem run_source_cameras_witness :
    (BatchCall.mk res0 fd0 (some 5)).source_cameras = some 5 :=
  (run_source_cameras false (some 5) ebA smA [fd0] false none none
    ⟨[BatchCall.mk res0 fd0 (some 5)], [0], [[("psnr", JVal.vnum 1)]],
      [[("psnr", JVal.vnum 1)]], none, false⟩ (by decide)
    (BatchCall.mk res0 fd0 (some 5)) (by decide)).1 rfl

/-! ### Summarization (spec-modelled external collaborator) -/

/-- A per-batch evaluation result: computed metrics plus camera-difficulty
metadata, accumulated into a list across the dataset. -/
structure EvalResult where
  category : String
  camera_difficulty : Rat
  metrics : List (String × Rat)
deriving DecidableEq, Repr

/-- Modelled from the spec: the camera-difficulty bucketing heuristic used to
stratify results — the bucket of a difficulty value under the configured bin
breaks (`[0-eps, low, medium, 1+eps]`) is the number of breaks it reaches. -/
def bucketOf (camera_difficulty_bin_breaks : List Rat) (d : Rat) : Nat :=
  (camera_difficulty_bin_breaks.filter (fun b => decide (b ≤ d))).length

/-- Modelled from the spec: `summarize_nvs_eval_results` from
`pytorch3d.implicitron.evaluation.evaluate_new_view_synthesis`, which is not
part of this source slice.  Per the spec it aggregates the accumulated
per-batch results by camera-difficulty bucket within each category into a
category-to-metrics mapping, embedded as the function giving, for a category,
bucket and metric name, the mean of that metric over the matching results
(`none` when no result matches).  The spec assigns `is_multisequence` no
further aggregation role, so it does not influence the mapping. -/
def summarize_nvs_eval_results (per_batch_eval_results : List EvalResult)
    (is_multisequence : Bool) (camera_difficulty_bin_breaks : List Rat) :
    String → Nat → String → Option Rat :=
  fun category bucket metric =>
    if ((per_batch_eval_results.filter (fun r =>
          r.category == category &&
            bucketOf camera_difficulty_bin_breaks r.camera_difficulty ==
              bucket)).filterMap
          (fun r => (r.metrics.find? (fun p => p.1 == metric)).map
            Prod.snd)).length = 0 then
      none
    else
      some
        (((per_batch_eval_results.filter (fun r =>
            r.category == category &&
              bucketOf camera_difficulty_bin_breaks r.camera_difficulty ==
                bucket)).filterMap
            (fun r => (r.metrics.find? (fun p => p.1 == metric)).map
              Prod.snd)).sum /
          (((per_batch_eval_results.filter (fun r =>
            r.category == category &&
              bucketOf camera_difficulty_bin_breaks r.camera_difficulty ==
                bucket)).filterMap
            (fun r => (r.metrics.find? (fun p => p.1 == metric)).map
              Prod.snd)).length : Rat))

/-- C7: summarization is order-independent — for every list of per-batch
evaluation results and every permutation of it,
`summarize_nvs_eval_results` (with fixed `is_multisequence` and
`camera_difficulty_bin_breaks`) yields the same category-to-metrics
mapping. -/
theorem summarize_nvs_eval_results_perm_invariant
    (is_multisequence : Bool) (camera_difficulty_bin_breaks : List Rat)
    (l₁ l₂ : List EvalResult) (h : l₁.Perm l₂) :
    summarize_nvs_eval_results l₁ is_multisequence camera_difficulty_bin_breaks =
      summarize_nvs_eval_results l₂ is_multisequence camera_difficulty_bin_breaks := by
  funext category bucket metric
  unfold summarize_nvs_eval_results
  have hperm :=
    (h.filter (fun r =>
      r.category == category &&
        bucketOf camera_difficulty_bin_breaks r.camera_difficulty ==
          bucket)).filterMap
      (fun r => (r.metrics.find? (fun p => p.1 == metric)).map Prod.snd)
  rw [hperm.length_eq, hperm.sum_eq]

/-- Two sample per-batch results for the same category in different
camera-difficulty buckets. -/
def erA : EvalResult :=
  { category := "chair", camera_difficulty := 97/100, metrics := [("psnr", 30)] }

/-- A second sample per-batch result. -/
def erB : EvalResult :=
  { category := "chair", camera_difficulty := 99/100, metrics := [("psnr", 20)] }

theorem summarize_nvs_eval_results_perm_invariant_witness :
    summarize_nvs_eval_results [erA, erB] false [97/100, 98/100] =
      summarize_nvs_eval_results [erB, erA] false [97/100, 98/100] :=
  summarize_nvs_eval_results_perm_invariant false [97/100, 98/100]
    [erA, erB] [erB, erA] (List.Perm.swap erB erA [])
